import Mathlib

/-!
Verification of the knowledge-base retrieval core of the
Nandi_Enigma support-ticket system.

This file contains a shallow embedding of the Python source
(`backend/repositories.py`, `backend/app.py`, `backend/ai_embedding.py`)
into Lean 4, together with theorems settling the frozen claims about the
natural-language specification.

Modelling conventions:
* Python floats are modelled as rationals (`ℚ`) wherever the code only
  moves them around; the real-valued cosine-distance expression of the
  vector tier is modelled over `ℝ`.
* Database tables are lists of records; each SQL statement is modelled by
  an explicit Lean function over the list.  Postgres full-text matching
  (`plainto_tsquery`/`ts_rank`) is an external index and is modelled by
  oracle functions carried in an environment record, while `ILIKE`
  matching is modelled concretely.
* A SQL statement that may raise (missing extension / missing generated
  column) is modelled by an availability flag in the environment; an
  execution is an `Except Unit` value, and the Python `try/except` blocks
  are translated as matches on it.
* Python `str.strip()`, `str.lower()` and `\W` are modelled on the ASCII
  fragment (non-ASCII code points are treated as word characters, which
  matches the Cyrillic texts this system processes).
-/

/-! ## Python string primitives -/

/-- Characters stripped by Python `str.strip()` (ASCII whitespace). -/
def isSpaceChar (c : Char) : Bool :=
  c == ' ' || c == '\t' || c == '\n' || c == '\r' || c == '\x0b' || c == '\x0c'

/-- Python `s.strip()`. -/
def pyStrip (s : String) : String :=
  String.mk (((s.toList.dropWhile isSpaceChar).reverse.dropWhile isSpaceChar).reverse)

/-- Python `s[:n]` (slice of the first `n` characters). -/
def pyTake (n : Nat) (s : String) : String :=
  String.mk (s.toList.take n)

/-- Python `s.lower()` (ASCII case folding). -/
def lowerStr (s : String) : String :=
  String.mk (s.toList.map Char.toLower)

/-- Python truthiness-based `a or b` on strings. -/
def pyOrStr (a b : String) : String := if a = "" then b else a

/-- `s.strip() or None`: a stripped string demoted to `None` when empty. -/
def pyOptOfStr (s : String) : Option String := if s = "" then none else some s

/-! ## `_project_to_384` (backend/ai_embedding.py) -/

/-- Embedding of `_project_to_384` from `backend/ai_embedding.py`:
normalizes a vector to exactly 384 entries by truncation or
zero-padding.  Floats are modelled as rationals. -/
def project_to_384 (values : List ℚ) : List ℚ :=
  if values.length = 384 then values
  else if 384 < values.length then values.take 384
  else values ++ List.replicate (384 - values.length) 0

/-! ## SQL `LIKE` / `ILIKE` pattern matching

Postgres `LIKE` with `%` (any run), `_` (any single character) and `\`
(escape).  The recursion is fuelled to stay structural; the fuel passed by
`pyLikeMatch` is always sufficient since every step consumes at least one
character of pattern or subject. -/

def likeGo : Nat → List Char → List Char → Bool
  | 0, _, _ => false
  | _ + 1, [], s => s.isEmpty
  | fuel + 1, '%' :: ps, [] => likeGo fuel ps []
  | fuel + 1, '%' :: ps, c :: cs =>
      likeGo fuel ps (c :: cs) || likeGo fuel ('%' :: ps) cs
  | fuel + 1, '\\' :: p :: ps, c :: cs => (p == c) && likeGo fuel ps cs
  | _ + 1, '\\' :: _ :: _, [] => false
  | _ + 1, ['\\'], _ => false
  | fuel + 1, '_' :: ps, _ :: cs => likeGo fuel ps cs
  | _ + 1, '_' :: _, [] => false
  | fuel + 1, p :: ps, c :: cs => (p == c) && likeGo fuel ps cs
  | _ + 1, _ :: _, [] => false

/-- `subject ILIKE pattern`: case-insensitive `LIKE` (ASCII folding). -/
def pyLikeMatch (subject pattern : String) : Bool :=
  likeGo (pattern.length + subject.length + 1)
    (lowerStr pattern).toList (lowerStr subject).toList

/-- `query.replace('%', '\\%').replace('_', '\\_')` from
`search_knowledge_base`: escapes `LIKE` wildcards in the query. -/
def escapeLike (q : String) : String :=
  String.mk (q.toList.foldr
    (fun c acc =>
      if c = '%' then '\\' :: '%' :: acc
      else if c = '_' then '\\' :: '_' :: acc
      else c :: acc) [])

/-! ## Query term extraction (`re.split(r"\W+", query)` and its filter) -/

/-- Python `\w` on the ASCII fragment, with non-ASCII code points treated
as word characters (the Cyrillic texts this system handles are all word
characters for `\w`). -/
def isWordChar (c : Char) : Bool :=
  c.isAlphanum || c == '_' || 128 ≤ c.toNat

/-- Maximal runs of word characters of a character list. -/
def wordRuns : List Char → List (List Char)
  | [] => []
  | c :: cs =>
    let r := wordRuns cs
    if isWordChar c then
      match cs.head? with
      | some d => if isWordChar d then ((c :: r.headD []) :: r.tail) else [c] :: r
      | none => [[c]]
    else r

/-- The term list of `search_knowledge_base` (lines 267-272): split the
query on non-word characters, keep terms of length at least 2 that contain
none of `' & ! ( )`, and cap the list at the first 10 terms. -/
def pyWords (query : String) : List String :=
  (((wordRuns query.toList).map String.mk).filter
    (fun w => 2 ≤ w.length &&
      !(w.toList.any (fun c => c ∈ ['\'', '&', '!', '(', ')'])))).take 10

/-! ## Knowledge-base data model -/

/-- A row of the `knowledge_base` table (fields per `init_database.py` /
spec section 6; embeddings and numeric scores as rationals). -/
structure KbEntry where
  id : Nat
  title : String
  content : String
  short_answer : Option String
  category : Option String
  tags : List String
  keywords : List String
  embedding : Option (List ℚ)
  is_active : Bool
  usage_count : Nat
  success_rate : ℚ
  created_at : Nat
  updated_at : Nat
deriving DecidableEq, Repr

/-- The projection selected by every tier of `search_knowledge_base`:
`id, title, content, short_answer, category, rank`. -/
structure KbRow where
  id : Nat
  title : String
  content : String
  short_answer : Option String
  category : Option String
  rank : Option ℚ
deriving DecidableEq, Repr

/-- The row a tier produces for entry `e` with score `rank`. -/
def entryRow (e : KbEntry) (rank : Option ℚ) : KbRow :=
  ⟨e.id, e.title, e.content, e.short_answer, e.category, rank⟩

/-- The dictionary `_kb_row_to_dict` builds (repositories.py lines
195-203).  `float(r["rank"])` is the identity in the rational model; the
rank is passed through unchanged. -/
structure KbDict where
  id : Nat
  title : String
  content : String
  short_answer : Option String
  category : Option String
  rank : Option ℚ
deriving DecidableEq, Repr

/-- `_kb_row_to_dict` from repositories.py lines 195-203. -/
def kb_row_to_dict (r : KbRow) : KbDict :=
  ⟨r.id, r.title, r.content, r.short_answer, r.category, r.rank⟩

/-! ## `ORDER BY` (stable insertion sort by a boolean comparator) -/

def insertSorted (le : α → α → Bool) (a : α) : List α → List α
  | [] => [a]
  | b :: l => if le a b then a :: b :: l else b :: insertSorted le a l

/-- Model of SQL `ORDER BY`: a stable sort by comparator `le`. -/
def sortBy (le : α → α → Bool) : List α → List α
  | [] => []
  | a :: l => insertSorted le a (sortBy le l)

/-! ## Retrieval environment -/

/-- External collaborators of the retrieval code: the embedding provider
(`get_embedding`, `None` when the import failed, and `none`-valued when
the provider is unavailable), the Postgres full-text index (match and
rank oracles for `plainto_tsquery('russian', ...)`/`ts_rank` and
`plainto_tsquery('simple', ...)`), the `pgvector` cosine-distance
operator `<=>`, and one availability flag per SQL statement that the code
wraps in `try/except` (a `false` flag models the statement raising, e.g.
a missing extension or generated column). -/
structure SearchEnv where
  getEmbedding : Option (String → Option (List ℚ))
  dist : List ℚ → KbEntry → ℚ
  ftsMatch : String → KbEntry → Bool
  ftsRank : String → KbEntry → ℚ
  ftsMatchSimple : String → KbEntry → Bool
  vecAvail : Bool
  ftsAvail : Bool
  orAvail : Bool
  likeAvail : Bool
  perTermAvail : Bool
  hybridFtsAvail : Bool

/-- A guarded SQL execution: the computed rows if the statement is
available, an exception otherwise. -/
def tryRun (avail : Bool) (rows : List KbRow) : Except Unit (List KbRow) :=
  if avail then .ok rows else .error ()

/-! ## The five tier queries of `search_knowledge_base` -/

/-- Tier 1 SQL (repositories.py lines 228-238): active entries with a
non-null embedding, ordered by cosine distance to the query embedding,
limited, with `rank = 1 - (embedding <=> query)`. -/
def vectorTierRows (env : SearchEnv) (store : List KbEntry) (emb : List ℚ)
    (lim : Nat) : List KbRow :=
  ((sortBy (fun a b => decide (env.dist emb a ≤ env.dist emb b))
      (store.filter (fun e => e.is_active && e.embedding.isSome))).take lim).map
    (fun e => entryRow e (some (1 - env.dist emb e)))

/-- Tier 2 SQL (lines 248-260): active entries matching
`plainto_tsquery('russian', query)`, ordered by `ts_rank` descending,
limited. -/
def ftsTierRows (env : SearchEnv) (store : List KbEntry) (query : String)
    (lim : Nat) : List KbRow :=
  ((sortBy (fun a b => decide (env.ftsRank query b ≤ env.ftsRank query a))
      (store.filter (fun e => e.is_active && env.ftsMatch query e))).take lim).map
    (fun e => entryRow e (some (env.ftsRank query e)))

/-- Tier 3 SQL (lines 279-291): active entries matching the OR of
`plainto_tsquery('russian', w)` over the query terms, constant rank 1.0,
ordered by id. -/
def orTierRows (env : SearchEnv) (store : List KbEntry) (ws : List String)
    (lim : Nat) : List KbRow :=
  ((sortBy (fun a b => decide (a.id ≤ b.id))
      (store.filter (fun e =>
        e.is_active && ws.any (fun w => env.ftsMatch w e)))).take lim).map
    (fun e => entryRow e (some 1))

/-- Tier 4/5 SQL shape (lines 297-307 and 314-324): active entries whose
title or content matches the `ILIKE` pattern, constant rank 1.0, no
ordering, limited. -/
def likeTierRows (store : List KbEntry) (pat : String) (lim : Nat) :
    List KbRow :=
  ((store.filter (fun e =>
      e.is_active && (pyLikeMatch e.title pat || pyLikeMatch e.content pat))).take
    lim).map (fun e => entryRow e (some 1))

/-- Tier 5 loop (lines 311-328): each term tried in order, breaking on
the first non-empty result; a per-word exception (`except: continue`) is
the unavailable case. -/
def perTermLoop (avail : Bool) (store : List KbEntry) (lim : Nat) :
    List String → List KbRow
  | [] => []
  | w :: ws =>
    match tryRun avail (likeTierRows store ("%" ++ escapeLike w ++ "%") lim) with
    | .error _ => perTermLoop avail store lim ws
    | .ok rows => if rows = [] then perTermLoop avail store lim ws else rows

/-! ## `search_knowledge_base` (repositories.py lines 206-329) -/

/-- Shallow embedding of `search_knowledge_base`.  The control flow
mirrors the source: the query is stripped and rejected when empty, the
limit is clamped to `[1, 20]`, the vector tier runs only when
`use_vector` holds and a 384-length embedding was obtained, the weighted
full-text tier converts an empty result into the exception path
(`raise ValueError("no rows")`), and each later tier runs only when
`rows` is still empty. -/
def search_knowledge_base (env : SearchEnv) (store : List KbEntry)
    (query : String) (limit : Nat) (use_vector : Bool) : List KbDict :=
  let query := pyStrip query
  if query = "" then []
  else
    let lim := max 1 (min limit 20)
    let pat := "%" ++ escapeLike query ++ "%"
    let vecResult : List KbRow :=
      if use_vector then
        match env.getEmbedding with
        | none => []
        | some ge =>
          match ge query with
          | none => []
          | some emb =>
            if emb ≠ [] ∧ emb.length = 384 then
              match tryRun env.vecAvail (vectorTierRows env store emb lim) with
              | .ok rows => rows
              | .error _ => []
            else []
      else []
    if vecResult ≠ [] then vecResult.map kb_row_to_dict
    else
      let rows2 : List KbRow :=
        match (do
          let rs ← tryRun env.ftsAvail (ftsTierRows env store query lim)
          if rs = [] then Except.error () else pure rs :
            Except Unit (List KbRow)) with
        | .ok rs => rs
        | .error _ => []
      let ws := pyWords query
      let rows3 : List KbRow :=
        if rows2 = [] then
          if ws ≠ [] then
            match tryRun env.orAvail (orTierRows env store ws lim) with
            | .ok rs => rs
            | .error _ => rows2
          else rows2
        else rows2
      let rows4 : List KbRow :=
        if rows3 = [] then
          match tryRun env.likeAvail (likeTierRows store pat lim) with
          | .ok rs => rs
          | .error _ => []
        else rows3
      let rows5 : List KbRow :=
        if rows4 = [] ∧ ws ≠ [] then perTermLoop env.perTermAvail store lim ws
        else rows4
      rows5.map kb_row_to_dict

/-- First non-empty result set of an ordered list of tier results. -/
def firstNonEmpty [DecidableEq α] : List (List α) → List α
  | [] => []
  | l :: ls => if l = [] then firstNonEmpty ls else l

/-! ## Attempted tiers (spec side of the fallback chain)

Each definition is the result set a tier contributes to the chain: the
tier's rows when its statement is available (and, for tiers 1/3/5, when
its precondition holds), and the empty set when it raised. -/

/-- Tier 1 as attempted: runs only when `use_vector` holds, the embedding
provider is importable, and it returned a non-empty 384-length embedding;
an unavailable vector index contributes zero results. -/
def attemptedVectorTier (env : SearchEnv) (store : List KbEntry) (q : String)
    (lim : Nat) (use_vector : Bool) : List KbRow :=
  if use_vector then
    match env.getEmbedding with
    | none => []
    | some ge =>
      match ge q with
      | none => []
      | some emb =>
        if emb ≠ [] ∧ emb.length = 384 ∧ env.vecAvail then
          vectorTierRows env store emb lim
        else []
  else []

/-- Tier 2 as attempted. -/
def attemptedFtsTier (env : SearchEnv) (store : List KbEntry) (q : String)
    (lim : Nat) : List KbRow :=
  if env.ftsAvail then ftsTierRows env store q lim else []

/-- Tier 3 as attempted: runs only when the term list is non-empty. -/
def attemptedOrTier (env : SearchEnv) (store : List KbEntry) (q : String)
    (lim : Nat) : List KbRow :=
  if pyWords q ≠ [] ∧ env.orAvail then orTierRows env store (pyWords q) lim
  else []

/-- Tier 4 as attempted. -/
def attemptedSubstringTier (env : SearchEnv) (store : List KbEntry)
    (q : String) (lim : Nat) : List KbRow :=
  if env.likeAvail then likeTierRows store ("%" ++ escapeLike q ++ "%") lim
  else []

/-- Tier 5 as attempted: runs only when the term list is non-empty. -/
def attemptedPerTermTier (env : SearchEnv) (store : List KbEntry)
    (q : String) (lim : Nat) : List KbRow :=
  if pyWords q ≠ [] then perTermLoop env.perTermAvail store lim (pyWords q)
  else []

/-! ## Concrete test fixtures (used by the witnesses) -/

/-- A fully-available environment whose full-text oracle matches
nothing. -/
def testEnv : SearchEnv where
  getEmbedding := none
  dist := fun _ _ => 0
  ftsMatch := fun _ _ => false
  ftsRank := fun _ _ => 0
  ftsMatchSimple := fun _ _ => false
  vecAvail := true
  ftsAvail := true
  orAvail := true
  likeAvail := true
  perTermAvail := true
  hybridFtsAvail := true

/-- A concrete active knowledge-base entry. -/
def testEntry : KbEntry where
  id := 1
  title := "Reset password"
  content := "Use the forgot password link"
  short_answer := some "Da"
  category := some "account"
  tags := []
  keywords := []
  embedding := none
  is_active := true
  usage_count := 0
  success_rate := 0
  created_at := 0
  updated_at := 0

/-! ## `search_kb_hybrid` (repositories.py lines 456-497) -/

/-- The `ORDER BY usage_count DESC, success_rate DESC, created_at DESC`
comparator of `search_kb_hybrid`. -/
def hybridLe (a b : KbEntry) : Bool :=
  decide (b.usage_count < a.usage_count ∨
    (a.usage_count = b.usage_count ∧
      (b.success_rate < a.success_rate ∨
        (a.success_rate = b.success_rate ∧ b.created_at ≤ a.created_at))))

/-- The `WHERE` clause of `search_kb_hybrid`: active, exact category
match when a filter is given, and a text match (title/content `ILIKE`,
plus the `plainto_tsquery('simple', ...)` disjunct when the
`search_vector` column is present). -/
def hybridWhere (env : SearchEnv) (query_text like_q : String)
    (category : Option String) (useFts : Bool) (e : KbEntry) : Bool :=
  e.is_active &&
  (match category with
   | none => true
   | some c => e.category == some c) &&
  (pyLikeMatch e.title like_q || pyLikeMatch e.content like_q ||
    (useFts && env.ftsMatchSimple query_text e))

/-- Shallow embedding of `search_kb_hybrid`.  The first SQL statement
(with the full-text disjunct) runs when the `search_vector` column is
present; on an exception the fallback statement without that disjunct
runs.  The `SELECT` projects `id, title, content, short_answer, category,
tags, usage_count, success_rate`; the model returns the entry record
itself. -/
def search_kb_hybrid (env : SearchEnv) (store : List KbEntry)
    (query_text : String) (category : Option String) (top_k : Nat) :
    List KbEntry :=
  let like_q := "%" ++ pyStrip query_text ++ "%"
  if env.hybridFtsAvail then
    (sortBy hybridLe
      (store.filter (hybridWhere env query_text like_q category true))).take
      top_k
  else
    (sortBy hybridLe
      (store.filter (hybridWhere env query_text like_q category false))).take
      top_k

/-- A second concrete active entry with a different category. -/
def testEntry2 : KbEntry where
  id := 2
  title := "Boiler error E21"
  content := "E21 means overheating"
  short_answer := none
  category := some "hardware"
  tags := []
  keywords := []
  embedding := none
  is_active := true
  usage_count := 0
  success_rate := 0
  created_at := 0
  updated_at := 0

/-! ## `/kb/ask` (backend/app.py lines 465-532) -/

/-- `KbAskRequest` from backend/schemas.py. -/
structure KbAskRequest where
  question : String
  limit : Nat
  use_vector : Bool

/-- `KbAskResponse` from backend/schemas.py. -/
structure KbAskResponse where
  question : String
  answer : String
  source_ids : List Nat
  fallback : Bool
deriving DecidableEq, Repr

/-- An HTTP error raised via `HTTPException`. -/
structure HttpError where
  status : Nat
  detail : String
deriving DecidableEq, Repr

/-- The no-knowledge system prompt of `api_kb_ask`. -/
def systemNoKb : String :=
  "Ты — вежливый сотрудник техподдержки. Напиши короткий ответ клиенту (2–3 предложения) на русском: " ++
  "что обращение получено, при необходимости уточняем информацию, ответим в ближайшее время. " ++
  "Не пиши, что «в базе знаний ничего не найдено». Не придумывай факты."

/-- The grounded system-prompt prefix of `api_kb_ask`. -/
def systemKbPrefix : String :=
  "Ты — помощник техподдержки. Отвечай только на основе приведённой ниже информации из базы знаний. " ++
  "Отвечай кратко, по существу, на русском языке. Не придумывай факты.\n\n"

/-- The generic acknowledgement returned when retrieval found nothing and
the completion collaborator produced no text. -/
def genericAck : String :=
  "Здравствуйте! Получили ваше обращение. Ответим в ближайшее время."

/-- The operator-referral text returned when the top entry has neither a
usable `short_answer` nor usable content. -/
def operatorReferral : String :=
  "Ответ по вашему запросу временно недоступен. Обратитесь к оператору."

/-- `_build_kb_context` from backend/app.py lines 465-474. -/
def build_kb_context (entries : List KbDict) : String :=
  if entries = [] then "В базе знаний нет релевантных записей."
  else
    String.intercalate "\n\n" (entries.map (fun e =>
      "--- Тема: " ++ (if e.title = "" then "Без названия" else e.title) ++
      " ---\n" ++ pyStrip e.content))

/-- Shallow embedding of `api_kb_ask` (backend/app.py lines 477-532).
The completion collaborator `ask_qwen` is the oracle `qwen` (`none`
models an unavailable collaborator, `some ""` an empty completion). -/
def api_kb_ask (env : SearchEnv) (store : List KbEntry)
    (qwen : String → String → Option String) (req : KbAskRequest) :
    Except HttpError KbAskResponse :=
  let question := pyStrip req.question
  if question = "" then .error ⟨400, "question не может быть пустым"⟩
  else
    let entries :=
      search_knowledge_base env store question req.limit req.use_vector
    let source_ids := entries.map (fun e => e.id)
    match entries with
    | [] =>
      let answer := qwen systemNoKb (pyTake 1500 question)
      .ok ⟨question,
        (match answer with
         | none => genericAck
         | some a => if pyStrip a = "" then genericAck else pyStrip a),
        [], true⟩
    | first :: _ =>
      let sys := systemKbPrefix ++ build_kb_context entries
      let answer := qwen sys question
      let ft0 :=
        match first.short_answer with
        | some s => if s ≠ "" then s else pyTake 500 first.content
        | none => pyTake 500 first.content
      let ft1 := if ft0 ≠ "" then pyStrip ft0 else ft0
      let ft2 := if ft1 = "" then operatorReferral else ft1
      match answer with
      | some a =>
        if a ≠ "" then .ok ⟨question, a, source_ids, false⟩
        else .ok ⟨question, ft2, source_ids, true⟩
      | none => .ok ⟨question, ft2, source_ids, true⟩

/-- "The completion collaborator is unavailable or returned empty
text". -/
def qwenEmpty (o : Option String) : Prop := o = none ∨ o = some ""

/-! ## The vector-tier score expression (repositories.py line 231)

The SQL `SELECT` of the vector tier computes
`(1 - (embedding <=> %s::vector)) AS rank`, where `<=>` is the `pgvector`
cosine-distance operator `1 - dot(a,b) / (|a| * |b|)`.  This real-valued
expression is modelled over `ℝ`. -/

noncomputable def dotList (a b : List ℝ) : ℝ :=
  (List.zipWith (fun x y => x * y) a b).sum

noncomputable def l2norm (a : List ℝ) : ℝ := Real.sqrt (dotList a a)

/-- The `pgvector` `<=>` operator: cosine distance. -/
noncomputable def cosineDistance (a b : List ℝ) : ℝ :=
  1 - dotList a b / (l2norm a * l2norm b)

/-- The `rank` the vector tier selects for an entry:
`1 - (embedding <=> query)`. -/
noncomputable def vectorTierScore (q e : List ℝ) : ℝ :=
  1 - cosineDistance q e

/-! ## `fill_knowledge_base_embeddings` (repositories.py lines 332-375) -/

/-- A Python dictionary key as used when subscripting a fetched row:
the probe code subscripts with the integer `0`, while `dict_row` rows
are keyed by column-name strings. -/
inductive PyKey where
  | kint (n : Nat)
  | kstr (s : String)
deriving DecidableEq, Repr

/-- Python `r[k]` on a dictionary: the value when the key is present,
`KeyError` otherwise. -/
def pyDictGet (r : List (PyKey × String)) (k : PyKey) :
    Except Unit String :=
  match r with
  | [] => .error ()
  | (k1, v) :: rest => if k = k1 then .ok v else pyDictGet rest k

/-- The rows of `SELECT column_name FROM information_schema.columns ...`
under `row_factory=dict_row`: one dictionary `{"column_name": name}` per
reported column. -/
def probeRows (schemaCols : List String) :
    List (List (PyKey × String)) :=
  schemaCols.map (fun name => [(PyKey.kstr "column_name", name)])

/-- The comprehension `{r[0] for r in cur.fetchall()}` of the column
probe (repositories.py line 348): subscripts each dictionary row with
the integer `0`, propagating the `KeyError` when a row has no such
key. -/
def probeRowSet (rows : List (List (PyKey × String))) :
    Except Unit (List String) :=
  match rows with
  | [] => .ok []
  | r :: rs => do
    let v ← pyDictGet r (PyKey.kint 0)
    let vs ← probeRowSet rs
    pure (v :: vs)

/-- External collaborators of the backfill: the embedding provider
(`None` when the import failed), the `information_schema` probe (whether
its `execute` succeeds and which column names it reports), the success
of each per-row `UPDATE`, and the clock for `updated_at`. -/
structure FillEnv where
  getEmbedding : Option (String → Option (List ℚ))
  probeExecOk : Bool
  schemaCols : List String
  updateOk : Nat → Bool
  now : Nat

/-- `f"{r.get('title') or ''} {r.get('content') or ''}".strip()[:8192]`. -/
def fillText (e : KbEntry) : String :=
  pyTake 8192 (pyStrip (e.title ++ " " ++ e.content))

/-- The per-row loop of `fill_knowledge_base_embeddings`: skip rows with
empty text, count an embedding failure or bad dimensionality or a failed
`UPDATE` as an error and continue, store the embedding and bump
`updated_at` on success. -/
def fillLoop (env : FillEnv) (ge : String → Option (List ℚ))
    (st : List KbEntry) (updated errors : Nat) :
    List KbEntry → (Nat × Nat) × List KbEntry
  | [] => ((updated, errors), st)
  | r :: rs =>
    let text := fillText r
    if text = "" then fillLoop env ge st updated errors rs
    else
      match ge text with
      | none => fillLoop env ge st updated (errors + 1) rs
      | some emb =>
        if emb = [] ∨ emb.length ≠ 384 then
          fillLoop env ge st updated (errors + 1) rs
        else if env.updateOk r.id then
          fillLoop env ge
            (st.map (fun e =>
              if e.id = r.id then
                { e with embedding := some emb, updated_at := env.now }
              else e))
            (updated + 1) errors rs
        else fillLoop env ge st updated (errors + 1) rs

/-- Shallow embedding of `fill_knowledge_base_embeddings` (lines
332-375): returns `(0, 0)` when the provider import failed; runs the
column probe on a `dict_row` cursor, returning `(0, 0)` when the probe
raises (including the `KeyError` from `r[0]` on a dictionary row) or
when `"embedding"` is not among the collected names; otherwise it would
select the NULL-embedding rows once up front and run the per-row
loop. -/
def fill_knowledge_base_embeddings (env : FillEnv) (store : List KbEntry) :
    (Nat × Nat) × List KbEntry :=
  match env.getEmbedding with
  | none => ((0, 0), store)
  | some ge =>
    match (do
      let rows ←
        (if env.probeExecOk then Except.ok (probeRows env.schemaCols)
         else Except.error ())
      probeRowSet rows : Except Unit (List String)) with
    | .error _ => ((0, 0), store)
    | .ok cols =>
      if "embedding" ∉ cols then ((0, 0), store)
      else
        fillLoop env ge store 0 0
          (store.filter (fun e => e.embedding.isNone))

/-! ## `create_or_update_ticket_from_email` (repositories.py lines
104-130) -/

/-- An incoming email item as handed to the ingestion function. -/
structure EmailItem where
  from_addr : Option String
  subject : Option String
  message_id : Option String
  in_reply_to : Option String
  body : Option String
  body_preview : Option String
deriving DecidableEq, Repr

/-- The columns of a `tickets` row that the ingestion inserts. -/
structure Ticket where
  id : Nat
  client_email : String
  client_name : Option String
  subject : String
  question : String
  status : String
  message_id : Option String
  in_reply_to : Option String
deriving DecidableEq, Repr

/-- The `tickets` table plus the serial `id` sequence. -/
structure TicketDb where
  tickets : List Ticket
  nextId : Nat
deriving DecidableEq, Repr

/-- The email environment: `email.utils.parseaddr`, an external parser
returning `(realname, address)`. -/
structure EmailEnv where
  parseaddr : String → String × String

/-- Shallow embedding of `create_or_update_ticket_from_email`: normalize
the sender, subject, message ids and body; when a non-empty stripped
`message_id` is present and a ticket with that `message_id` exists,
return its id with `False` and insert nothing; otherwise insert a new
`'new'` ticket and return its id with `True`. -/
def create_or_update_ticket_from_email (env : EmailEnv) (db : TicketDb)
    (em : EmailItem) : (Nat × Bool) × TicketDb :=
  let pa := env.parseaddr (em.from_addr.getD "")
  let from_name := pa.1
  let from_email0 := pa.2
  let from_email :=
    if from_email0 = "" then
      (if em.from_addr.getD "" = "" then "unknown@example.com"
       else em.from_addr.getD "")
    else from_email0
  let subject :=
    match em.subject with
    | some s => if s = "" then "(без темы)" else s
    | none => "(без темы)"
  let message_id := pyOptOfStr (pyStrip (em.message_id.getD ""))
  let in_reply_to := pyOptOfStr (pyStrip (em.in_reply_to.getD ""))
  let body := pyOrStr (em.body.getD "") (em.body_preview.getD "")
  let insertNew : (Nat × Bool) × TicketDb :=
    ((db.nextId, true),
     ⟨db.tickets ++
        [⟨db.nextId, from_email, pyOptOfStr from_name, subject, body, "new",
          message_id, in_reply_to⟩],
      db.nextId + 1⟩)
  match message_id with
  | some mid =>
    match db.tickets.find? (fun t => t.message_id == some mid) with
    | some t => ((t.id, false), db)
    | none => insertNew
  | none => insertNew

/-- A trivial address parser: no display name, the raw string as the
address. -/
def testEmailEnv : EmailEnv where
  parseaddr := fun s => ("", s)

/-- A concrete incoming email with a message id. -/
def testEmail : EmailItem :=
  ⟨some "bob@example.com", some "Help", some "<m1@x>", none,
   some "It broke", none⟩

/-! ## `update_ticket` (repositories.py lines 71-101) -/

/-- A dynamic SQL parameter value (string, boolean or NULL). -/
inductive PyVal where
  | vstr (s : String)
  | vbool (b : Bool)
  | vnull
deriving DecidableEq, Repr

/-- A `tickets` row as `update_ticket` sees it: the updatable columns as
a dynamic name/value mapping, plus `updated_at`. -/
structure TicketRec where
  id : Nat
  cols : List (String × PyVal)
  updated_at : Nat
deriving DecidableEq, Repr

/-- The `allowed` set of `update_ticket`. -/
def allowedUpdateKeys : List String :=
  ["client_name", "phone", "location_object", "serial_numbers",
   "device_type", "question", "answer", "status", "needs_attention",
   "is_resolved"]

/-- One SQL `SET k = v` assignment on a row's columns. -/
def setCol (cols : List (String × PyVal)) (k : String) (v : PyVal) :
    List (String × PyVal) :=
  cols.map (fun kv => if kv.1 = k then (k, v) else kv)

/-- Shallow embedding of `update_ticket`: an empty update mapping or one
with no allowed key performs no write and returns the stored row; an
update with allowed keys applies exactly those assignments plus
`updated_at = now` to the rows with the given id. -/
def update_ticket (now : Nat) (db : List TicketRec) (ticket_id : Nat)
    (updates : List (String × PyVal)) :
    Option TicketRec × List TicketRec :=
  if updates = [] then (db.find? (fun t => t.id == ticket_id), db)
  else
    let safe := updates.filter (fun kv => allowedUpdateKeys.contains kv.1)
    if safe = [] then (db.find? (fun t => t.id == ticket_id), db)
    else
      let db2 := db.map (fun t =>
        if t.id = ticket_id then
          { t with
            cols := safe.foldl (fun cs kv => setCol cs kv.1 kv.2) t.cols,
            updated_at := now }
        else t)
      (db2.find? (fun t => t.id == ticket_id), db2)

set_option maxRecDepth 8000

/-- C7: `_project_to_384` always returns exactly 384 floats, keeps the
first `min (input length) 384` input values unchanged, pads a short
input with zeros and truncates a long input to its first 384 values;
being a total function it never raises on a dimension mismatch. -/
theorem project_to_384_spec (values : List ℚ) :
    (project_to_384 values).length = 384 ∧
    (project_to_384 values).take (min values.length 384) =
      values.take (min values.length 384) ∧
    (values.length ≤ 384 →
      project_to_384 values = values ++ List.replicate (384 - values.length) 0) ∧
    (384 ≤ values.length → project_to_384 values = values.take 384) := by
  rcases lt_trichotomy values.length 384 with hlt | heq | hgt
  · have hp : project_to_384 values = values ++ List.replicate (384 - values.length) 0 := by
      unfold project_to_384
      rw [if_neg (by omega), if_neg (by omega)]
    refine ⟨?_, ?_, fun _ => hp, fun hge => absurd hge (by omega)⟩
    · rw [hp]; simp; omega
    · rw [hp, Nat.min_eq_left (le_of_lt hlt), List.take_left, List.take_length]
  · have hp : project_to_384 values = values := by
      unfold project_to_384; rw [if_pos heq]
    refine ⟨by rw [hp, heq], by rw [hp], fun _ => ?_, fun _ => ?_⟩
    · rw [hp, heq]; simp
    · rw [hp]; exact (List.take_of_length_le (le_of_eq heq)).symm
  · have hp : project_to_384 values = values.take 384 := by
      unfold project_to_384
      rw [if_neg (by omega), if_pos hgt]
    refine ⟨?_, ?_, fun hle => absurd hle (by omega), fun _ => hp⟩
    · rw [hp]; simp; omega
    · rw [hp, Nat.min_eq_right (le_of_lt hgt), List.take_take, min_self]

/-- Witness for C7: length-200 and length-500 inputs behave as claimed. -/
theorem project_to_384_spec_witness :
    (project_to_384 (List.replicate 200 (1 : ℚ))).length = 384 ∧
    project_to_384 (List.replicate 200 (1 : ℚ)) =
      List.replicate 200 (1 : ℚ) ++ List.replicate 184 0 ∧
    project_to_384 (List.replicate 500 (1 : ℚ)) =
      (List.replicate 500 (1 : ℚ)).take 384 := by
  refine ⟨(project_to_384_spec (List.replicate 200 (1 : ℚ))).1, ?_, ?_⟩
  · have h := (project_to_384_spec (List.replicate 200 (1 : ℚ))).2.2.1
      (by rw [List.length_replicate]; omega)
    simpa using h
  · exact (project_to_384_spec (List.replicate 500 (1 : ℚ))).2.2.2
      (by rw [List.length_replicate]; omega)

theorem mem_insertSorted {le : α → α → Bool} {a x : α} {l : List α} :
    x ∈ insertSorted le a l ↔ x = a ∨ x ∈ l := by
  induction l with
  | nil => simp [insertSorted]
  | cons b t ih =>
    simp only [insertSorted]
    by_cases h : le a b
    · simp [h]
    · simp only [if_neg h, List.mem_cons, ih]
      tauto

theorem mem_sortBy {le : α → α → Bool} {x : α} {l : List α} :
    x ∈ sortBy le l ↔ x ∈ l := by
  induction l with
  | nil => simp [sortBy]
  | cons b t ih => simp [sortBy, mem_insertSorted, ih]

theorem length_insertSorted (le : α → α → Bool) (a : α) (l : List α) :
    (insertSorted le a l).length = l.length + 1 := by
  induction l with
  | nil => rfl
  | cons b t ih =>
    simp only [insertSorted]
    by_cases h : le a b
    · simp [h]
    · simp [if_neg h, ih]

theorem length_sortBy (le : α → α → Bool) (l : List α) :
    (sortBy le l).length = l.length := by
  induction l with
  | nil => rfl
  | cons b t ih => simp [sortBy, length_insertSorted, ih]

/-! ## The chain equality -/

theorem vecCollapse (env : SearchEnv) (store : List KbEntry) (q : String)
    (lim : Nat) (use_vector : Bool) :
    (if use_vector then
        match env.getEmbedding with
        | none => []
        | some ge =>
          match ge q with
          | none => []
          | some emb =>
            if emb ≠ [] ∧ emb.length = 384 then
              match tryRun env.vecAvail (vectorTierRows env store emb lim) with
              | .ok rows => rows
              | .error _ => []
            else []
      else []) = attemptedVectorTier env store q lim use_vector := by
  cases use_vector
  · simp [attemptedVectorTier]
  · unfold attemptedVectorTier
    simp only [if_pos rfl]
    cases env.getEmbedding with
    | none => rfl
    | some ge =>
      dsimp only
      cases ge q with
      | none => rfl
      | some emb =>
        dsimp only
        by_cases hok : emb ≠ [] ∧ emb.length = 384
        · cases hva : env.vecAvail
          · simp [tryRun, hok.1, hok.2, hva]
          · simp [tryRun, hok.1, hok.2, hva]
        · simp only [if_neg hok, if_true]
          rw [if_neg (fun hc => hok ⟨hc.1, hc.2.1⟩)]

theorem rows2Collapse (b : Bool) (X : List KbRow) :
    (match (do
      let rs ← tryRun b X
      if rs = [] then Except.error () else pure rs :
        Except Unit (List KbRow)) with
     | .ok rs => rs
     | .error _ => []) = if b then X else [] := by
  cases b <;> by_cases hX : X = [] <;>
    simp [tryRun, hX, Bind.bind, Except.bind, Pure.pure, Except.pure]

theorem chainCore (b2 b3 b4 : Bool) (wsne : Prop) [Decidable wsne]
    (X2 X3 X4 X5 : List KbRow) :
    (let rows2 : List KbRow :=
        match (do
          let rs ← tryRun b2 X2
          if rs = [] then Except.error () else pure rs :
            Except Unit (List KbRow)) with
        | .ok rs => rs
        | .error _ => []
      let rows3 : List KbRow :=
        if rows2 = [] then
          if wsne then
            match tryRun b3 X3 with
            | .ok rs => rs
            | .error _ => rows2
          else rows2
        else rows2
      let rows4 : List KbRow :=
        if rows3 = [] then
          match tryRun b4 X4 with
          | .ok rs => rs
          | .error _ => []
        else rows3
      let rows5 : List KbRow :=
        if rows4 = [] ∧ wsne then X5 else rows4
      rows5.map kb_row_to_dict) =
    (firstNonEmpty
      [if b2 then X2 else [], if wsne ∧ b3 then X3 else [],
       if b4 then X4 else [], if wsne then X5 else []]).map
      kb_row_to_dict := by
  simp only [rows2Collapse]
  by_cases hws : wsne <;> cases b2 <;> cases b3 <;> cases b4 <;>
    by_cases h2 : X2 = [] <;> by_cases h3 : X3 = [] <;>
    by_cases h4 : X4 = [] <;> by_cases h5 : X5 = [] <;>
    simp_all [firstNonEmpty, tryRun]

theorem chainTailEq (env : SearchEnv) (store : List KbEntry) (q : String)
    (lim : Nat) :
    (let rows2 : List KbRow :=
        match (do
          let rs ← tryRun env.ftsAvail (ftsTierRows env store q lim)
          if rs = [] then Except.error () else pure rs :
            Except Unit (List KbRow)) with
        | .ok rs => rs
        | .error _ => []
      let ws := pyWords q
      let rows3 : List KbRow :=
        if rows2 = [] then
          if ws ≠ [] then
            match tryRun env.orAvail (orTierRows env store ws lim) with
            | .ok rs => rs
            | .error _ => rows2
          else rows2
        else rows2
      let rows4 : List KbRow :=
        if rows3 = [] then
          match tryRun env.likeAvail
              (likeTierRows store ("%" ++ escapeLike q ++ "%") lim) with
          | .ok rs => rs
          | .error _ => []
        else rows3
      let rows5 : List KbRow :=
        if rows4 = [] ∧ ws ≠ [] then perTermLoop env.perTermAvail store lim ws
        else rows4
      rows5.map kb_row_to_dict) =
    (firstNonEmpty
      [attemptedFtsTier env store q lim, attemptedOrTier env store q lim,
       attemptedSubstringTier env store q lim,
       attemptedPerTermTier env store q lim]).map kb_row_to_dict := by
  simp only [attemptedFtsTier, attemptedOrTier, attemptedSubstringTier,
    attemptedPerTermTier]
  exact chainCore env.ftsAvail env.orAvail env.likeAvail (pyWords q ≠ [])
    (ftsTierRows env store q lim) (orTierRows env store (pyWords q) lim)
    (likeTierRows store ("%" ++ escapeLike q ++ "%") lim)
    (perTermLoop env.perTermAvail store lim (pyWords q))

theorem search_eq_tier_chain (env : SearchEnv) (store : List KbEntry)
    (query : String) (limit : Nat) (use_vector : Bool)
    (h : ¬ pyStrip query = "") :
    search_knowledge_base env store query limit use_vector =
      (firstNonEmpty
        [attemptedVectorTier env store (pyStrip query) (max 1 (min limit 20))
          use_vector,
         attemptedFtsTier env store (pyStrip query) (max 1 (min limit 20)),
         attemptedOrTier env store (pyStrip query) (max 1 (min limit 20)),
         attemptedSubstringTier env store (pyStrip query)
          (max 1 (min limit 20)),
         attemptedPerTermTier env store (pyStrip query)
          (max 1 (min limit 20))]).map kb_row_to_dict := by
  simp only [search_knowledge_base]
  rw [if_neg h]
  rw [vecCollapse env store (pyStrip query) (max 1 (min limit 20)) use_vector]
  by_cases ht1 : attemptedVectorTier env store (pyStrip query)
      (max 1 (min limit 20)) use_vector = []
  · rw [if_neg (by simp [ht1])]
    rw [show firstNonEmpty
        [attemptedVectorTier env store (pyStrip query) (max 1 (min limit 20))
          use_vector,
         attemptedFtsTier env store (pyStrip query) (max 1 (min limit 20)),
         attemptedOrTier env store (pyStrip query) (max 1 (min limit 20)),
         attemptedSubstringTier env store (pyStrip query)
          (max 1 (min limit 20)),
         attemptedPerTermTier env store (pyStrip query)
          (max 1 (min limit 20))] =
      firstNonEmpty
        [attemptedFtsTier env store (pyStrip query) (max 1 (min limit 20)),
         attemptedOrTier env store (pyStrip query) (max 1 (min limit 20)),
         attemptedSubstringTier env store (pyStrip query)
          (max 1 (min limit 20)),
         attemptedPerTermTier env store (pyStrip query)
          (max 1 (min limit 20))] from by simp [firstNonEmpty, ht1]]
    exact chainTailEq env store (pyStrip query) (max 1 (min limit 20))
  · rw [if_pos (by simp [ht1])]
    simp [firstNonEmpty, ht1]

/-- C1: for every query, `search_knowledge_base` attempts its tiers in the
fixed order vector / weighted full-text / OR-of-terms full-text /
combined substring / per-term substring; each later tier contributes only
when every earlier tier produced an empty result set (an unavailable tier
counts as zero results and is not surfaced), the first non-empty tier's
results are returned, and when all tiers are empty the result is the
empty list, not an error. -/
theorem search_knowledge_base_tier_order (env : SearchEnv)
    (store : List KbEntry) (query : String) (limit : Nat) (use_vector : Bool)
    (h : pyStrip query ≠ "") :
    search_knowledge_base env store query limit use_vector =
      (firstNonEmpty
        [attemptedVectorTier env store (pyStrip query) (max 1 (min limit 20))
          use_vector,
         attemptedFtsTier env store (pyStrip query) (max 1 (min limit 20)),
         attemptedOrTier env store (pyStrip query) (max 1 (min limit 20)),
         attemptedSubstringTier env store (pyStrip query)
          (max 1 (min limit 20)),
         attemptedPerTermTier env store (pyStrip query)
          (max 1 (min limit 20))]).map kb_row_to_dict ∧
    (attemptedVectorTier env store (pyStrip query) (max 1 (min limit 20))
        use_vector = [] →
      attemptedFtsTier env store (pyStrip query) (max 1 (min limit 20)) = [] →
      attemptedOrTier env store (pyStrip query) (max 1 (min limit 20)) = [] →
      attemptedSubstringTier env store (pyStrip query)
        (max 1 (min limit 20)) = [] →
      attemptedPerTermTier env store (pyStrip query)
        (max 1 (min limit 20)) = [] →
      search_knowledge_base env store query limit use_vector = []) := by
  refine ⟨search_eq_tier_chain env store query limit use_vector h, ?_⟩
  intro h1 h2 h3 h4 h5
  rw [search_eq_tier_chain env store query limit use_vector h]
  simp [firstNonEmpty, h1, h2, h3, h4, h5]

/-- Witness for C1 at a concrete query and store. -/
theorem search_knowledge_base_tier_order_witness :
    pyStrip "password" ≠ "" ∧
    search_knowledge_base testEnv [testEntry] "password" 5 false =
      (firstNonEmpty
        [attemptedVectorTier testEnv [testEntry] (pyStrip "password")
          (max 1 (min 5 20)) false,
         attemptedFtsTier testEnv [testEntry] (pyStrip "password")
          (max 1 (min 5 20)),
         attemptedOrTier testEnv [testEntry] (pyStrip "password")
          (max 1 (min 5 20)),
         attemptedSubstringTier testEnv [testEntry] (pyStrip "password")
          (max 1 (min 5 20)),
         attemptedPerTermTier testEnv [testEntry] (pyStrip "password")
          (max 1 (min 5 20))]).map kb_row_to_dict :=
  ⟨by decide,
   (search_knowledge_base_tier_order testEnv [testEntry] "password" 5 false
     (by decide)).1⟩

/-! ## Membership lemmas for the tiers -/

theorem bandl {a b : Bool} (h : (a && b) = true) : a = true :=
  (Bool.and_eq_true a b ▸ h).1

theorem bandr {a b : Bool} (h : (a && b) = true) : b = true :=
  (Bool.and_eq_true a b ▸ h).2

theorem mem_take_sort_filter {p : KbEntry → Bool} {le : KbEntry → KbEntry → Bool}
    {store : List KbEntry} {lim : Nat} {e : KbEntry}
    (h : e ∈ (sortBy le (store.filter p)).take lim) :
    e ∈ store ∧ p e = true := by
  have h1 := List.mem_of_mem_take h
  have h2 := mem_sortBy.1 h1
  exact ⟨(List.mem_filter.1 h2).1, (List.mem_filter.1 h2).2⟩

theorem row_mem_sorted {p : KbEntry → Bool} {le : KbEntry → KbEntry → Bool}
    {store : List KbEntry} {lim : Nat} {f : KbEntry → KbRow} {r : KbRow}
    (h : r ∈ ((sortBy le (store.filter p)).take lim).map f) :
    ∃ e, e ∈ store ∧ p e = true ∧ r = f e := by
  rcases List.mem_map.1 h with ⟨e, he, hfe⟩
  rcases mem_take_sort_filter he with ⟨hs, hp⟩
  exact ⟨e, hs, hp, hfe.symm⟩

theorem row_mem_likeTier {store : List KbEntry} {pat : String} {lim : Nat}
    {r : KbRow} (h : r ∈ likeTierRows store pat lim) :
    ∃ e, e ∈ store ∧
      (e.is_active && (pyLikeMatch e.title pat || pyLikeMatch e.content pat))
        = true ∧ r = entryRow e (some 1) := by
  rcases List.mem_map.1 h with ⟨e, he, hfe⟩
  have h1 := List.mem_of_mem_take he
  exact ⟨e, (List.mem_filter.1 h1).1, (List.mem_filter.1 h1).2, hfe.symm⟩

theorem row_mem_perTermLoop {avail : Bool} {store : List KbEntry} {lim : Nat} :
    ∀ {ws : List String} {r : KbRow}, r ∈ perTermLoop avail store lim ws →
      ∃ pat, r ∈ likeTierRows store pat lim := by
  intro ws
  induction ws with
  | nil => intro r h; simp [perTermLoop] at h
  | cons w ws ih =>
    intro r h
    rw [perTermLoop] at h
    by_cases havail : avail = true
    · simp only [havail, tryRun, eq_self_iff_true, if_true] at ih h
      by_cases he : likeTierRows store ("%" ++ escapeLike w ++ "%") lim = []
      · rw [if_pos he] at h
        exact ih h
      · rw [if_neg he] at h
        exact ⟨_, h⟩
    · have hf : avail = false := by simpa using havail
      simp only [hf, tryRun, if_neg Bool.false_ne_true] at ih h
      exact ih h

theorem row_active_of_mem_attempted {env : SearchEnv} {store : List KbEntry}
    {q : String} {lim : Nat} {uv : Bool} {r : KbRow}
    (h : r ∈ attemptedVectorTier env store q lim uv ∨
      r ∈ attemptedFtsTier env store q lim ∨
      r ∈ attemptedOrTier env store q lim ∨
      r ∈ attemptedSubstringTier env store q lim ∨
      r ∈ attemptedPerTermTier env store q lim) :
    ∃ e rk, e ∈ store ∧ e.is_active = true ∧ r = entryRow e rk := by
  rcases h with h | h | h | h | h
  · unfold attemptedVectorTier at h
    rcases uv with _ | _
    · simp at h
    · simp only [if_pos rfl] at h
      cases hge : env.getEmbedding with
      | none => rw [hge] at h; simp at h
      | some ge =>
        rw [hge] at h
        dsimp only at h
        cases hq : ge q with
        | none => rw [hq] at h; simp at h
        | some emb =>
          rw [hq] at h
          dsimp only at h
          by_cases hc : emb ≠ [] ∧ emb.length = 384 ∧ env.vecAvail = true
          · rw [if_pos hc] at h
            unfold vectorTierRows at h
            rcases row_mem_sorted h with ⟨e, hs, hp, hr⟩
            exact ⟨e, _, hs, bandl hp, hr⟩
          · rw [if_neg hc] at h
            simp at h
  · unfold attemptedFtsTier at h
    by_cases hc : env.ftsAvail = true
    · rw [if_pos hc] at h
      unfold ftsTierRows at h
      rcases row_mem_sorted h with ⟨e, hs, hp, hr⟩
      exact ⟨e, _, hs, bandl hp, hr⟩
    · rw [if_neg hc] at h
      simp at h
  · unfold attemptedOrTier at h
    by_cases hc : pyWords q ≠ [] ∧ env.orAvail = true
    · rw [if_pos hc] at h
      unfold orTierRows at h
      rcases row_mem_sorted h with ⟨e, hs, hp, hr⟩
      exact ⟨e, _, hs, bandl hp, hr⟩
    · rw [if_neg hc] at h
      simp at h
  · unfold attemptedSubstringTier at h
    by_cases hc : env.likeAvail = true
    · rw [if_pos hc] at h
      rcases row_mem_likeTier h with ⟨e, hs, hp, hr⟩
      exact ⟨e, _, hs, bandl hp, hr⟩
    · rw [if_neg hc] at h
      simp at h
  · unfold attemptedPerTermTier at h
    by_cases hc : pyWords q ≠ []
    · rw [if_pos hc] at h
      rcases row_mem_perTermLoop h with ⟨pat, hlike⟩
      rcases row_mem_likeTier hlike with ⟨e, hs, hp, hr⟩
      exact ⟨e, _, hs, bandl hp, hr⟩
    · rw [if_neg hc] at h
      simp at h

theorem mem_firstNonEmpty [DecidableEq α] {x : α} :
    ∀ {L : List (List α)}, x ∈ firstNonEmpty L → ∃ l ∈ L, x ∈ l
  | [], h => by simp [firstNonEmpty] at h
  | l :: ls, h => by
    by_cases he : l = []
    · rw [firstNonEmpty, if_pos he] at h
      rcases mem_firstNonEmpty h with ⟨l', hl', hx⟩
      exact ⟨l', List.mem_cons_of_mem _ hl', hx⟩
    · rw [firstNonEmpty, if_neg he] at h
      exact ⟨l, List.mem_cons_self _ _, h⟩

/-- C4: an entry with `is_active = false` is never contained in the
result of any retrieval operation: every dictionary that
`search_knowledge_base` returns (through whichever tier) is the
projection of an active stored entry, and every row `search_kb_hybrid`
returns is an active stored entry, for every query, category filter,
limit and flag. -/
theorem inactive_never_returned :
    (∀ (env : SearchEnv) (store : List KbEntry) (query : String)
        (limit : Nat) (uv : Bool) (d : KbDict),
      d ∈ search_knowledge_base env store query limit uv →
      ∃ e rk, e ∈ store ∧ e.is_active = true ∧
        d = kb_row_to_dict (entryRow e rk)) ∧
    (∀ (env : SearchEnv) (store : List KbEntry) (q : String)
        (cat : Option String) (k : Nat) (e : KbEntry),
      e ∈ search_kb_hybrid env store q cat k →
      e ∈ store ∧ e.is_active = true) := by
  constructor
  · intro env store query limit uv d hd
    by_cases hq : pyStrip query = ""
    · rw [search_knowledge_base, if_pos hq] at hd
      simp at hd
    · rw [search_eq_tier_chain env store query limit uv hq] at hd
      rcases List.mem_map.1 hd with ⟨r, hr, hdr⟩
      rcases mem_firstNonEmpty hr with ⟨l, hl, hrl⟩
      simp only [List.mem_cons, List.not_mem_nil, or_false] at hl
      have hor : r ∈ attemptedVectorTier env store (pyStrip query)
            (max 1 (min limit 20)) uv ∨
          r ∈ attemptedFtsTier env store (pyStrip query)
            (max 1 (min limit 20)) ∨
          r ∈ attemptedOrTier env store (pyStrip query)
            (max 1 (min limit 20)) ∨
          r ∈ attemptedSubstringTier env store (pyStrip query)
            (max 1 (min limit 20)) ∨
          r ∈ attemptedPerTermTier env store (pyStrip query)
            (max 1 (min limit 20)) := by
        rcases hl with h | h | h | h | h <;> subst h <;> tauto
      rcases row_active_of_mem_attempted hor with ⟨e, rk, hs, ha, hre⟩
      exact ⟨e, rk, hs, ha, by rw [← hdr, hre]⟩
  · intro env store q cat k e he
    unfold search_kb_hybrid at he
    by_cases hf : env.hybridFtsAvail = true
    · rw [if_pos hf] at he
      rcases mem_take_sort_filter he with ⟨hs, hp⟩
      exact ⟨hs, bandl (bandl hp)⟩
    · rw [if_neg hf] at he
      rcases mem_take_sort_filter he with ⟨hs, hp⟩
      exact ⟨hs, bandl (bandl hp)⟩

/-- Witness for C4: a concrete returned dictionary and hybrid row, both
traced back to an active stored entry. -/
theorem inactive_never_returned_witness :
    kb_row_to_dict (entryRow testEntry (some 1)) ∈
      search_knowledge_base testEnv [testEntry] "password" 5 false ∧
    (∃ e rk, e ∈ [testEntry] ∧ e.is_active = true ∧
      kb_row_to_dict (entryRow testEntry (some 1)) =
        kb_row_to_dict (entryRow e rk)) ∧
    testEntry ∈ search_kb_hybrid testEnv [testEntry] "password" none 3 ∧
    (testEntry ∈ [testEntry] ∧ testEntry.is_active = true) := by
  have h1 : kb_row_to_dict (entryRow testEntry (some 1)) ∈
      search_knowledge_base testEnv [testEntry] "password" 5 false := by decide
  have h2 : testEntry ∈ search_kb_hybrid testEnv [testEntry] "password" none 3 := by
    decide
  exact ⟨h1, inactive_never_returned.1 testEnv [testEntry] "password" 5 false _ h1,
    h2, inactive_never_returned.2 testEnv [testEntry] "password" none 3 _ h2⟩

theorem mem_take_or_full {α : Type} {l : List α} {e : α} (he : e ∈ l)
    (k : Nat) : e ∈ l.take k ∨ (l.take k).length = k := by
  by_cases h : l.length ≤ k
  · left; rw [List.take_of_length_le h]; exact he
  · right; rw [List.length_take]; omega

/-- C3: with a non-null category filter, `search_kb_hybrid` returns only
entries whose category equals the filter (an entry of another category is
excluded); the filter restricts candidates before ranking/limiting, so a
matching entry of the requested category is returned unless the limit is
already filled by same-category entries; with no filter both entries of a
two-category store can be returned. -/
theorem hybrid_category_filter :
    (∀ (env : SearchEnv) (store : List KbEntry) (q c : String) (k : Nat)
        (e : KbEntry),
      e ∈ search_kb_hybrid env store q (some c) k → e.category = some c) ∧
    (∀ (env : SearchEnv) (store : List KbEntry) (q c : String) (k : Nat)
        (e : KbEntry),
      e ∈ store → e.is_active = true → e.category = some c →
      (pyLikeMatch e.title ("%" ++ pyStrip q ++ "%") = true ∨
        pyLikeMatch e.content ("%" ++ pyStrip q ++ "%") = true) →
      e ∈ search_kb_hybrid env store q (some c) k ∨
        (search_kb_hybrid env store q (some c) k).length = k) ∧
    (∀ (env : SearchEnv) (store : List KbEntry) (q c : String) (k : Nat)
        (e : KbEntry),
      e.category ≠ some c → e ∉ search_kb_hybrid env store q (some c) k) ∧
    (testEntry ∈ search_kb_hybrid testEnv [testEntry, testEntry2] "e" none 3 ∧
      testEntry2 ∈ search_kb_hybrid testEnv [testEntry, testEntry2] "e" none 3 ∧
      testEntry.category ≠ testEntry2.category) := by
  have honly : ∀ (env : SearchEnv) (store : List KbEntry) (q c : String)
      (k : Nat) (e : KbEntry),
      e ∈ search_kb_hybrid env store q (some c) k → e.category = some c := by
    intro env store q c k e he
    rw [search_kb_hybrid] at he
    have hw : hybridWhere env q ("%" ++ pyStrip q ++ "%") (some c) true e = true ∨
        hybridWhere env q ("%" ++ pyStrip q ++ "%") (some c) false e = true := by
      by_cases hf : env.hybridFtsAvail = true
      · rw [if_pos hf] at he
        exact Or.inl (mem_take_sort_filter he).2
      · rw [if_neg hf] at he
        exact Or.inr (mem_take_sort_filter he).2
    have : (e.category == some c) = true := by
      rcases hw with hw | hw <;>
        · unfold hybridWhere at hw
          exact bandr (bandl hw)
    exact eq_of_beq this
  refine ⟨honly, ?_, ?_, ?_⟩
  · intro env store q c k e hs ha hc hlike
    have hp : ∀ u : Bool,
        hybridWhere env q ("%" ++ pyStrip q ++ "%") (some c) u e = true := by
      intro u
      unfold hybridWhere
      rw [ha, hc]
      rcases hlike with h | h <;> simp [h]
    rw [search_kb_hybrid]
    by_cases hf : env.hybridFtsAvail = true
    · rw [if_pos hf]
      exact mem_take_or_full
        (mem_sortBy.2 (List.mem_filter.2 ⟨hs, hp true⟩)) k
    · rw [if_neg hf]
      exact mem_take_or_full
        (mem_sortBy.2 (List.mem_filter.2 ⟨hs, hp false⟩)) k
  · intro env store q c k e hne he
    exact hne (honly env store q c k e he)
  · exact ⟨by decide, by decide, by decide⟩

/-- Witness for C3: with the store holding an `account` entry and a
`hardware` entry both matching the query, the `account`-filtered search
returns the former and excludes the latter. -/
theorem hybrid_category_filter_witness :
    testEntry ∈
      search_kb_hybrid testEnv [testEntry, testEntry2] "e" (some "account") 3 ∧
    testEntry.category = some "account" ∧
    testEntry2 ∉
      search_kb_hybrid testEnv [testEntry, testEntry2] "e" (some "account") 3 := by
  have h1 : testEntry ∈
      search_kb_hybrid testEnv [testEntry, testEntry2] "e" (some "account") 3 := by
    decide
  exact ⟨h1,
    hybrid_category_filter.1 testEnv [testEntry, testEntry2] "e" "account" 3
      testEntry h1,
    hybrid_category_filter.2.2.1 testEnv [testEntry, testEntry2] "e" "account" 3
      testEntry2 (by decide)⟩

theorem ftSpec (sa : Option String) (content : String) :
    (let ft0 :=
       match sa with
       | some s => if s ≠ "" then s else pyTake 500 content
       | none => pyTake 500 content
     let ft1 := if ft0 ≠ "" then pyStrip ft0 else ft0
     let ft2 := if ft1 = "" then operatorReferral else ft1
     ft2 ≠ "" ∧
     (∀ s, sa = some s → s ≠ "" → pyStrip s ≠ "" → ft2 = pyStrip s) ∧
     ((sa = none ∨ sa = some "") → pyStrip (pyTake 500 content) ≠ "" →
       ft2 = pyStrip (pyTake 500 content)) ∧
     ((sa = none ∨ sa = some "") → pyStrip (pyTake 500 content) = "" →
       ft2 = operatorReferral)) := by
  have href : operatorReferral ≠ "" := by decide
  have hstripnil : pyStrip "" = "" := by decide
  cases sa with
  | none =>
    dsimp only
    by_cases h0 : pyTake 500 content = ""
    · rw [if_neg (not_not_intro h0), if_pos h0]
      exact ⟨href, fun s hs => Option.noConfusion hs,
        fun _ hne => absurd (by rw [h0]; exact hstripnil) hne,
        fun _ _ => rfl⟩
    · rw [if_pos h0]
      by_cases h1 : pyStrip (pyTake 500 content) = ""
      · rw [if_pos h1]
        exact ⟨href, fun s hs => Option.noConfusion hs,
          fun _ hne => absurd h1 hne, fun _ _ => rfl⟩
      · rw [if_neg h1]
        exact ⟨h1, fun s hs => Option.noConfusion hs, fun _ _ => rfl,
          fun _ hc => absurd hc h1⟩
  | some s =>
    dsimp only
    by_cases hs : s = ""
    · rw [if_neg (not_not_intro hs)]
      by_cases h0 : pyTake 500 content = ""
      · rw [if_neg (not_not_intro h0), if_pos h0]
        exact ⟨href,
          fun t ht ht1 _ => absurd (by rw [← Option.some.inj ht]; exact hs) ht1,
          fun _ hne => absurd (by rw [h0]; exact hstripnil) hne,
          fun _ _ => rfl⟩
      · rw [if_pos h0]
        by_cases h1 : pyStrip (pyTake 500 content) = ""
        · rw [if_pos h1]
          exact ⟨href,
            fun t ht ht1 _ =>
              absurd (by rw [← Option.some.inj ht]; exact hs) ht1,
            fun _ hne => absurd h1 hne, fun _ _ => rfl⟩
        · rw [if_neg h1]
          exact ⟨h1,
            fun t ht ht1 _ =>
              absurd (by rw [← Option.some.inj ht]; exact hs) ht1,
            fun _ _ => rfl, fun _ hc => absurd hc h1⟩
    · rw [if_pos hs, if_pos hs]
      by_cases h1 : pyStrip s = ""
      · rw [if_pos h1]
        refine ⟨href, fun t ht _ ht2 => ?_, fun hor _ => ?_, fun _ _ => rfl⟩
        · have hst : s = t := Option.some.inj ht
          subst hst
          exact absurd h1 ht2
        · rcases hor with hor | hor
          · exact Option.noConfusion hor
          · exact absurd (Option.some.inj hor) hs
      · rw [if_neg h1]
        refine ⟨h1, fun t ht _ _ => ?_, fun hor _ => ?_, fun hor _ => ?_⟩
        · have hst : s = t := Option.some.inj ht
          subst hst
          rfl
        · rcases hor with hor | hor
          · exact Option.noConfusion hor
          · exact absurd (Option.some.inj hor) hs
        · rcases hor with hor | hor
          · exact Option.noConfusion hor
          · exact absurd (Option.some.inj hor) hs

/-- C5: for every non-empty question `api_kb_ask` returns a response with
a non-empty answer.  When retrieval found entries but the completion
collaborator was unavailable or returned empty text, the fallback flag is
set and the answer is the top result's stripped `short_answer`, or the
stripped first 500 characters of its content when `short_answer` is
absent or empty, or the operator-referral text when both strip to
nothing; when retrieval found nothing, the fallback flag is set and (with
the collaborator unavailable or empty) the answer is the generic
acknowledgement. -/
theorem kb_ask_nonempty_answer (env : SearchEnv) (store : List KbEntry)
    (qwen : String → String → Option String) (req : KbAskRequest)
    (h : pyStrip req.question ≠ "") :
    ∃ resp : KbAskResponse,
      api_kb_ask env store qwen req = .ok resp ∧
      resp.answer ≠ "" ∧
      (∀ first rest,
        search_knowledge_base env store (pyStrip req.question) req.limit
          req.use_vector = first :: rest →
        qwenEmpty (qwen (systemKbPrefix ++ build_kb_context (first :: rest))
          (pyStrip req.question)) →
        resp.fallback = true ∧
        (∀ s, first.short_answer = some s → s ≠ "" → pyStrip s ≠ "" →
          resp.answer = pyStrip s) ∧
        ((first.short_answer = none ∨ first.short_answer = some "") →
          pyStrip (pyTake 500 first.content) ≠ "" →
          resp.answer = pyStrip (pyTake 500 first.content)) ∧
        ((first.short_answer = none ∨ first.short_answer = some "") →
          pyStrip (pyTake 500 first.content) = "" →
          resp.answer = operatorReferral)) ∧
      (search_knowledge_base env store (pyStrip req.question) req.limit
          req.use_vector = [] →
        resp.fallback = true ∧
        (qwenEmpty (qwen systemNoKb (pyTake 1500 (pyStrip req.question))) →
          resp.answer = genericAck)) := by
  simp only [api_kb_ask]
  rw [if_neg h]
  cases hent : search_knowledge_base env store (pyStrip req.question)
      req.limit req.use_vector with
  | nil =>
    dsimp only
    cases hq : qwen systemNoKb (pyTake 1500 (pyStrip req.question)) with
    | none =>
      refine ⟨_, rfl, ?_, ?_, ?_⟩
      · show genericAck ≠ ""
        decide
      · intro first rest heq
        exact absurd heq (by simp)
      · intro _
        exact ⟨rfl, fun _ => rfl⟩
    | some a =>
      dsimp only
      by_cases ha : pyStrip a = ""
      · rw [if_pos ha]
        refine ⟨_, rfl, ?_, ?_, ?_⟩
        · show genericAck ≠ ""
          decide
        · intro first rest heq
          exact absurd heq (by simp)
        · intro _
          exact ⟨rfl, fun _ => rfl⟩
      · rw [if_neg ha]
        refine ⟨_, rfl, ha, ?_, ?_⟩
        · intro first rest heq
          exact absurd heq (by simp)
        · intro _
          refine ⟨rfl, fun hqe => ?_⟩
          rcases hqe with hqe | hqe
          · exact Option.noConfusion hqe
          · exact absurd (by rw [Option.some.inj hqe]; exact (by decide))
              ha
  | cons first rest =>
    dsimp only
    have hft := ftSpec first.short_answer first.content
    dsimp only at hft
    cases hq : qwen (systemKbPrefix ++ build_kb_context (first :: rest))
        (pyStrip req.question) with
    | some a =>
      dsimp only
      by_cases ha : a = ""
      · rw [if_neg (not_not_intro ha)]
        refine ⟨_, rfl, hft.1, ?_, ?_⟩
        · intro first' rest' heq hqe
          injection heq with h1 h2
          subst h1
          exact ⟨rfl, hft.2.1, hft.2.2.1, hft.2.2.2⟩
        · intro heq
          exact absurd heq (by simp)
      · rw [if_pos ha]
        refine ⟨_, rfl, ha, ?_, ?_⟩
        · intro first' rest' heq hqe
          injection heq with h1 h2
          subst h1
          subst h2
          rw [hq] at hqe
          rcases hqe with hqe | hqe
          · exact Option.noConfusion hqe
          · exact absurd (Option.some.inj hqe) ha
        · intro heq
          exact absurd heq (by simp)
    | none =>
      dsimp only
      refine ⟨_, rfl, hft.1, ?_, ?_⟩
      · intro first' rest' heq hqe
        injection heq with h1 h2
        subst h1
        exact ⟨rfl, hft.2.1, hft.2.2.1, hft.2.2.2⟩
      · intro heq
        exact absurd heq (by simp)

/-- Witness for C5 at a concrete store, question and an unavailable
completion collaborator. -/
theorem kb_ask_nonempty_answer_witness :
    pyStrip "password" ≠ "" ∧
    ∃ resp : KbAskResponse,
      api_kb_ask testEnv [testEntry] (fun _ _ => none)
        ⟨"password", 5, false⟩ = .ok resp ∧
      resp.answer ≠ "" ∧
      (∀ first rest,
        search_knowledge_base testEnv [testEntry] (pyStrip "password") 5
          false = first :: rest →
        qwenEmpty (none : Option String) →
        resp.fallback = true ∧
        (∀ s, first.short_answer = some s → s ≠ "" → pyStrip s ≠ "" →
          resp.answer = pyStrip s) ∧
        ((first.short_answer = none ∨ first.short_answer = some "") →
          pyStrip (pyTake 500 first.content) ≠ "" →
          resp.answer = pyStrip (pyTake 500 first.content)) ∧
        ((first.short_answer = none ∨ first.short_answer = some "") →
          pyStrip (pyTake 500 first.content) = "" →
          resp.answer = operatorReferral)) ∧
      (search_knowledge_base testEnv [testEntry] (pyStrip "password") 5
          false = [] →
        resp.fallback = true ∧
        (qwenEmpty (none : Option String) → resp.answer = genericAck)) :=
  ⟨by decide,
   kb_ask_nonempty_answer testEnv [testEntry] (fun _ _ => none)
     ⟨"password", 5, false⟩ (by decide)⟩

/-- C8: a query that is empty or whitespace-only is rejected immediately:
`search_knowledge_base` returns `[]` before reaching any tier (for every
environment and store, so no index or store is consulted), and the ask
endpoint rejects the question with a caller-visible 400 error. -/
theorem empty_query_short_circuit (q : String) (h : pyStrip q = "") :
    (∀ (env : SearchEnv) (store : List KbEntry) (limit : Nat) (uv : Bool),
      search_knowledge_base env store q limit uv = []) ∧
    (∀ (env : SearchEnv) (store : List KbEntry)
        (qwen : String → String → Option String) (limit : Nat) (uv : Bool),
      api_kb_ask env store qwen ⟨q, limit, uv⟩ =
        .error ⟨400, "question не может быть пустым"⟩) := by
  constructor
  · intro env store limit uv
    rw [search_knowledge_base, if_pos h]
  · intro env store qwen limit uv
    simp only [api_kb_ask]
    rw [if_pos h]

/-- Witness for C8 at a whitespace-only question. -/
theorem empty_query_short_circuit_witness :
    pyStrip "   " = "" ∧
    search_knowledge_base testEnv [testEntry] "   " 5 false = [] ∧
    api_kb_ask testEnv [testEntry] (fun _ _ => none) ⟨"   ", 5, false⟩ =
      .error ⟨400, "question не может быть пустым"⟩ :=
  ⟨by decide,
   (empty_query_short_circuit "   " (by decide)).1 testEnv [testEntry] 5 false,
   (empty_query_short_circuit "   " (by decide)).2 testEnv [testEntry]
     (fun _ _ => none) 5 false⟩

theorem dotList_cons (x y : ℝ) (a b : List ℝ) :
    dotList (x :: a) (y :: b) = x * y + dotList a b := by
  simp [dotList]

theorem dotList_replicate_zero (n : Nat) :
    dotList (List.replicate n (0 : ℝ)) (List.replicate n 0) = 0 := by
  induction n with
  | zero => simp [dotList]
  | succ k ih => rw [List.replicate_succ, dotList_cons, ih]; ring

/-- Counterexample to C2: the vector tier's score is not clamped into
`[0, 1]`.  For the (384-length, unit-norm) query embedding
`(1, 0, ..., 0)` and stored embedding `(-1, 0, ..., 0)` the cosine
distance is 2 and the selected score is `-1 < 0`; `_kb_row_to_dict`
passes a negative rank through unchanged. -/
theorem vector_score_not_clamped :
    vectorTierScore ((1 : ℝ) :: List.replicate 383 0)
      ((-1 : ℝ) :: List.replicate 383 0) = -1 ∧
    vectorTierScore ((1 : ℝ) :: List.replicate 383 0)
      ((-1 : ℝ) :: List.replicate 383 0) < 0 ∧
    (kb_row_to_dict ⟨1, "t", "c", none, none, some (-1)⟩).rank =
      some (-1) := by
  have hqq : dotList ((1 : ℝ) :: List.replicate 383 0)
      ((1 : ℝ) :: List.replicate 383 0) = 1 := by
    rw [dotList_cons, dotList_replicate_zero]; ring
  have hee : dotList ((-1 : ℝ) :: List.replicate 383 0)
      ((-1 : ℝ) :: List.replicate 383 0) = 1 := by
    rw [dotList_cons, dotList_replicate_zero]; ring
  have hqe : dotList ((1 : ℝ) :: List.replicate 383 0)
      ((-1 : ℝ) :: List.replicate 383 0) = -1 := by
    rw [dotList_cons, dotList_replicate_zero]; ring
  have hmain : vectorTierScore ((1 : ℝ) :: List.replicate 383 0)
      ((-1 : ℝ) :: List.replicate 383 0) = -1 := by
    rw [vectorTierScore, cosineDistance, hqe, l2norm, l2norm, hqq, hee,
      Real.sqrt_one]
    norm_num
  exact ⟨hmain, by rw [hmain]; norm_num, rfl⟩

theorem dotList_eq_sum :
    ∀ (a b : List ℝ), a.length = b.length →
      dotList a b =
        ∑ i ∈ Finset.range a.length, a.getD i 0 * b.getD i 0 := by
  intro a
  induction a with
  | nil => intro b h; simp [dotList]
  | cons x xs ih =>
    intro b h
    cases b with
    | nil => simp at h
    | cons y ys =>
      have hl : xs.length = ys.length := by simpa using h
      rw [dotList_cons, ih ys hl]
      rw [List.length_cons, Finset.sum_range_succ']
      simp [add_comm]

theorem dotList_self_nonneg (a : List ℝ) : 0 ≤ dotList a a := by
  rw [dotList_eq_sum a a rfl]
  exact Finset.sum_nonneg fun i _ => mul_self_nonneg _

/-- Amended C2: the vector-tier score is `1 − cosine distance` with no
clamping applied (`_kb_row_to_dict` returns the rank unchanged); for
equal-length embeddings of nonzero norm the score lies in `[−1, 1]` and,
as the counterexample shows, it can be negative. -/
theorem vector_score_range (q e : List ℝ) (hlen : q.length = e.length)
    (hq : dotList q q ≠ 0) (he : dotList e e ≠ 0) :
    (-1 ≤ vectorTierScore q e ∧ vectorTierScore q e ≤ 1) ∧
    (∀ r : KbRow, (kb_row_to_dict r).rank = r.rank) := by
  have hqq : 0 < dotList q q := lt_of_le_of_ne (dotList_self_nonneg q)
    (Ne.symm hq)
  have hee : 0 < dotList e e := lt_of_le_of_ne (dotList_self_nonneg e)
    (Ne.symm he)
  have hnq : 0 < l2norm q := Real.sqrt_pos.2 hqq
  have hne : 0 < l2norm e := Real.sqrt_pos.2 hee
  have hP : 0 < l2norm q * l2norm e := mul_pos hnq hne
  have hub : dotList q e ≤ l2norm q * l2norm e := by
    rw [dotList_eq_sum q e hlen, l2norm, l2norm, dotList_eq_sum q q rfl,
      dotList_eq_sum e e rfl, ← hlen]
    have := Real.sum_mul_le_sqrt_mul_sqrt (Finset.range q.length)
      (fun i => q.getD i 0) (fun i => e.getD i 0)
    simpa [pow_two] using this
  have hlb : -(l2norm q * l2norm e) ≤ dotList q e := by
    rw [dotList_eq_sum q e hlen, l2norm, l2norm, dotList_eq_sum q q rfl,
      dotList_eq_sum e e rfl, ← hlen]
    have := Real.sum_mul_le_sqrt_mul_sqrt (Finset.range q.length)
      (fun i => -(q.getD i 0)) (fun i => e.getD i 0)
    have h2 : -(∑ i ∈ Finset.range q.length, q.getD i 0 * e.getD i 0) ≤
        Real.sqrt (∑ i ∈ Finset.range q.length, q.getD i 0 * q.getD i 0) *
        Real.sqrt (∑ i ∈ Finset.range q.length, e.getD i 0 * e.getD i 0) := by
      simpa [pow_two, Finset.sum_neg_distrib, neg_mul] using this
    linarith
  have hscore : vectorTierScore q e =
      dotList q e / (l2norm q * l2norm e) := by
    rw [vectorTierScore, cosineDistance]; ring
  constructor
  · constructor
    · rw [hscore]
      rw [le_div_iff₀ hP]
      linarith
    · rw [hscore]
      rw [div_le_one hP]
      exact hub
  · intro r; rfl

/-- Witness for the amended C2 at concrete one-dimensional unit
vectors. -/
theorem vector_score_range_witness :
    dotList [(1 : ℝ)] [(1 : ℝ)] ≠ 0 ∧
    ((-1 ≤ vectorTierScore [(1 : ℝ)] [(1 : ℝ)] ∧
      vectorTierScore [(1 : ℝ)] [(1 : ℝ)] ≤ 1) ∧
     (∀ r : KbRow, (kb_row_to_dict r).rank = r.rank)) :=
  ⟨by simp [dotList],
   vector_score_range [(1 : ℝ)] [(1 : ℝ)] rfl (by simp [dotList])
     (by simp [dotList])⟩

/-- C6 (code bug): the backfill can never update anything.  The column
probe runs on a `dict_row` cursor, so each fetched row is a dictionary
keyed `column_name`; the comprehension subscripts it as `r[0]`, which
raises `KeyError` on the first row (swallowed by the
`except Exception: return 0, 0`), and when the probe returns no rows the
`"embedding" not in set` branch fires instead.  Hence for every
environment and store `fill_knowledge_base_embeddings` returns `(0, 0)`
and leaves the store unchanged: the NULL-embedding scan/update loop of
lines 352-375 is dead code, and the claimed updated/error counting and
re-runnable backfill never happen. -/
theorem fill_embeddings_always_zero (env : FillEnv) (store : List KbEntry) :
    fill_knowledge_base_embeddings env store = ((0, 0), store) := by
  rw [fill_knowledge_base_embeddings]
  cases hge : env.getEmbedding with
  | none => rfl
  | some ge =>
    dsimp only
    cases hpe : env.probeExecOk
    · simp [Bind.bind, Except.bind]
    · cases hsc : env.schemaCols with
      | nil =>
        simp [probeRows, probeRowSet, Bind.bind, Except.bind]
      | cons c cs =>
        simp [probeRows, probeRowSet, pyDictGet, Bind.bind, Except.bind]


theorem find?_append_none {α : Type} {p : α → Bool} {l1 : List α}
    (h : l1.find? p = none) (l2 : List α) :
    (l1 ++ l2).find? p = l2.find? p := by
  induction l1 with
  | nil => simp
  | cons a t ih =>
    cases hpa : p a with
    | true =>
      rw [List.find?_cons_of_pos _ hpa] at h
      cases h
    | false =>
      rw [List.find?_cons_of_neg _ (by simp [hpa])] at h
      rw [List.cons_append, List.find?_cons_of_neg _ (by simp [hpa])]
      exact ih h

/-- C9: ingestion of the same email twice is idempotent.  For an email
whose stripped `message_id` is non-empty, if a call created a ticket
(flag `true`), calling again with the same email returns the same ticket
id with flag `false` and leaves the table unchanged (no second row); an
email with no usable `message_id` always creates a new ticket. -/
theorem ticket_ingest_idempotent :
    (∀ (env : EmailEnv) (db : TicketDb) (em : EmailItem) (id : Nat)
        (db' : TicketDb),
      pyStrip (em.message_id.getD "") ≠ "" →
      create_or_update_ticket_from_email env db em = ((id, true), db') →
      create_or_update_ticket_from_email env db' em = ((id, false), db')) ∧
    (∀ (env : EmailEnv) (db : TicketDb) (em : EmailItem),
      pyStrip (em.message_id.getD "") = "" →
      (create_or_update_ticket_from_email env db em).1 = (db.nextId, true) ∧
      (create_or_update_ticket_from_email env db em).2.tickets.length =
        db.tickets.length + 1) := by
  constructor
  · intro env db em id db' hmid hcall
    have hsome : pyOptOfStr (pyStrip (em.message_id.getD "")) =
        some (pyStrip (em.message_id.getD "")) := by
      rw [pyOptOfStr, if_neg hmid]
    simp only [create_or_update_ticket_from_email, hsome] at hcall ⊢
    cases hfind : db.tickets.find? (fun t =>
        t.message_id == some (pyStrip (em.message_id.getD ""))) with
    | some t =>
      rw [hfind] at hcall
      exact absurd (congrArg (fun x => x.1.2) hcall) Bool.false_ne_true
    | none =>
      rw [hfind] at hcall
      have hid : db.nextId = id := congrArg (fun x => x.1.1) hcall
      have hdb : (⟨db.tickets ++
          [⟨db.nextId,
            (if (env.parseaddr (em.from_addr.getD "")).2 = "" then
              (if em.from_addr.getD "" = "" then "unknown@example.com"
               else em.from_addr.getD "")
             else (env.parseaddr (em.from_addr.getD "")).2),
            pyOptOfStr (env.parseaddr (em.from_addr.getD "")).1,
            (match em.subject with
             | some s => if s = "" then "(без темы)" else s
             | none => "(без темы)"),
            pyOrStr (em.body.getD "") (em.body_preview.getD ""), "new",
            some (pyStrip (em.message_id.getD "")),
            pyOptOfStr (pyStrip (em.in_reply_to.getD ""))⟩],
          db.nextId + 1⟩ : TicketDb) = db' := congrArg (fun x => x.2) hcall
      rw [← hdb, ← hid]
      dsimp only
      rw [find?_append_none hfind]
      rw [List.find?_cons_of_pos _ (by simp)]
  · intro env db em hmid
    have hnone : pyOptOfStr (pyStrip (em.message_id.getD "")) = none := by
      rw [pyOptOfStr, if_pos hmid]
    simp only [create_or_update_ticket_from_email, hnone]
    exact ⟨by simp, by simp⟩

/-- Witness for C9: the first delivery creates ticket 1, the second
delivery of the same email returns ticket 1 with flag `false` and the
table unchanged. -/
theorem ticket_ingest_idempotent_witness :
    pyStrip (testEmail.message_id.getD "") ≠ "" ∧
    create_or_update_ticket_from_email testEmailEnv ⟨[], 1⟩ testEmail =
      ((1, true),
       ⟨[⟨1, "bob@example.com", none, "Help", "It broke", "new",
          some "<m1@x>", none⟩], 2⟩) ∧
    create_or_update_ticket_from_email testEmailEnv
      ⟨[⟨1, "bob@example.com", none, "Help", "It broke", "new",
         some "<m1@x>", none⟩], 2⟩ testEmail =
      ((1, false),
       ⟨[⟨1, "bob@example.com", none, "Help", "It broke", "new",
          some "<m1@x>", none⟩], 2⟩) := by
  have h1 : create_or_update_ticket_from_email testEmailEnv ⟨[], 1⟩
      testEmail =
      ((1, true),
       ⟨[⟨1, "bob@example.com", none, "Help", "It broke", "new",
          some "<m1@x>", none⟩], 2⟩) := by decide
  exact ⟨by decide, h1,
    ticket_ingest_idempotent.1 testEmailEnv ⟨[], 1⟩ testEmail 1 _
      (by decide) h1⟩

theorem lookup_setCol_ne (cols : List (String × PyVal)) (k k' : String)
    (v : PyVal) (h : k ≠ k') :
    (setCol cols k' v).lookup k = cols.lookup k := by
  induction cols with
  | nil => rfl
  | cons a t ih =>
    rw [setCol, List.map_cons]
    by_cases ha : a.1 = k'
    · rw [if_pos ha]
      have h1 : (k == k') = false := by simp [h]
      have h2 : (k == a.1) = false := by simp [ha ▸ h]
      rw [show ((k', v) :: List.map
          (fun kv => if kv.1 = k' then (k', v) else kv) t).lookup k =
          (List.map (fun kv => if kv.1 = k' then (k', v) else kv) t).lookup k
        from by rw [List.lookup_cons]; simp [h1]]
      rw [show ((a.1, a.2) :: t).lookup k = t.lookup k from by
        rw [List.lookup_cons]; simp [h2]]
      have := ih
      rw [setCol] at this
      cases a
      exact this
    · rw [if_neg ha]
      cases a with
      | mk a1 a2 =>
        by_cases hka : k = a1
        · subst hka
          rw [List.lookup_cons, List.lookup_cons]
          simp
        · rw [List.lookup_cons, List.lookup_cons]
          have hb : (k == a1) = false := by simp [hka]
          simp only [hb]
          have := ih
          rw [setCol] at this
          exact this

theorem lookup_foldl_setCol (k : String)
    (hk : allowedUpdateKeys.contains k = false) :
    ∀ (safe : List (String × PyVal)),
      (∀ kv ∈ safe, allowedUpdateKeys.contains kv.1 = true) →
      ∀ cols : List (String × PyVal),
        (safe.foldl (fun cs kv => setCol cs kv.1 kv.2) cols).lookup k =
          cols.lookup k := by
  intro safe
  induction safe with
  | nil => intro _ cols; rfl
  | cons kv t ih =>
    intro hall cols
    rw [List.foldl_cons]
    rw [ih (fun x hx => hall x (List.mem_cons_of_mem _ hx))]
    apply lookup_setCol_ne
    intro hkk
    rw [hkk] at hk
    rw [hall kv (List.mem_cons_self _ _)] at hk
    cases hk

/-- C10: `update_ticket` silently ignores keys outside the allowed
column set (updating with a mapping is the same as updating with its
allowed-key restriction); an empty mapping or one with no allowed key
performs no write and returns the stored state unchanged (including
`updated_at`); an applied update touches only the rows with the given
id, and even for those rows every column outside the allowed set keeps
its value, with `updated_at` set to the write time. -/
theorem update_ticket_frame (now : Nat) (db : List TicketRec)
    (ticket_id : Nat) (updates : List (String × PyVal)) :
    update_ticket now db ticket_id updates =
      update_ticket now db ticket_id
        (updates.filter (fun kv => allowedUpdateKeys.contains kv.1)) ∧
    (updates.filter (fun kv => allowedUpdateKeys.contains kv.1) = [] →
      update_ticket now db ticket_id updates =
        (db.find? (fun t => t.id == ticket_id), db)) ∧
    (∀ t ∈ db, t.id ≠ ticket_id →
      t ∈ (update_ticket now db ticket_id updates).2) ∧
    (∀ t ∈ db, ∃ t' ∈ (update_ticket now db ticket_id updates).2,
      t'.id = t.id ∧
      ∀ k, allowedUpdateKeys.contains k = false →
        t'.cols.lookup k = t.cols.lookup k) ∧
    (updates.filter (fun kv => allowedUpdateKeys.contains kv.1) ≠ [] →
      ∀ t ∈ db, t.id = ticket_id →
        ∃ t' ∈ (update_ticket now db ticket_id updates).2,
          t'.id = t.id ∧ t'.updated_at = now) := by
  by_cases hu : updates = []
  · subst hu
    refine ⟨rfl, fun _ => rfl, fun t ht _ => ht,
      fun t ht => ⟨t, ht, rfl, fun _ _ => rfl⟩, fun hne => absurd rfl hne⟩
  · by_cases hs : updates.filter (fun kv => allowedUpdateKeys.contains kv.1)
        = []
    · have heq : update_ticket now db ticket_id updates =
          (db.find? (fun t => t.id == ticket_id), db) := by
        rw [update_ticket, if_neg hu]
        dsimp only
        rw [if_pos hs]
      have heq2 : update_ticket now db ticket_id
          (updates.filter (fun kv => allowedUpdateKeys.contains kv.1)) =
          (db.find? (fun t => t.id == ticket_id), db) := by
        rw [hs, update_ticket, if_pos rfl]
      refine ⟨by rw [heq, heq2], fun _ => heq, ?_, ?_, fun hne => absurd hs hne⟩
      · intro t ht _
        rw [heq]
        exact ht
      · intro t ht
        rw [heq]
        exact ⟨t, ht, rfl, fun _ _ => rfl⟩
    · have hff : (updates.filter
          (fun kv => allowedUpdateKeys.contains kv.1)).filter
          (fun kv => allowedUpdateKeys.contains kv.1) =
          updates.filter (fun kv => allowedUpdateKeys.contains kv.1) := by
        rw [List.filter_filter]
        apply List.filter_congr
        intro x _
        rw [Bool.and_self]
      have heq : update_ticket now db ticket_id updates =
          ((db.map (fun t =>
            if t.id = ticket_id then
              { t with
                cols := (updates.filter
                  (fun kv => allowedUpdateKeys.contains kv.1)).foldl
                    (fun cs kv => setCol cs kv.1 kv.2) t.cols,
                updated_at := now }
            else t)).find? (fun t => t.id == ticket_id),
           db.map (fun t =>
            if t.id = ticket_id then
              { t with
                cols := (updates.filter
                  (fun kv => allowedUpdateKeys.contains kv.1)).foldl
                    (fun cs kv => setCol cs kv.1 kv.2) t.cols,
                updated_at := now }
            else t)) := by
        rw [update_ticket, if_neg hu]
        dsimp only
        rw [if_neg hs]
      have heq2 : update_ticket now db ticket_id
          (updates.filter (fun kv => allowedUpdateKeys.contains kv.1)) =
          update_ticket now db ticket_id updates := by
        rw [heq, update_ticket, if_neg hs]
        dsimp only
        rw [hff, if_neg hs]
      refine ⟨heq2.symm, fun hc => absurd hc hs, ?_, ?_, ?_⟩
      · intro t ht hne
        rw [heq]
        dsimp only
        refine List.mem_map.2 ⟨t, ht, ?_⟩
        rw [if_neg hne]
      · intro t ht
        rw [heq]
        dsimp only
        by_cases hid : t.id = ticket_id
        · refine ⟨_, List.mem_map.2 ⟨t, ht, rfl⟩, ?_⟩
          rw [if_pos hid]
          refine ⟨rfl, fun k hk => ?_⟩
          exact lookup_foldl_setCol k hk _
            (fun kv hkv => (List.mem_filter.1 hkv).2) t.cols
        · refine ⟨_, List.mem_map.2 ⟨t, ht, rfl⟩, ?_⟩
          rw [if_neg hid]
          exact ⟨rfl, fun _ _ => rfl⟩
      · intro _ t ht hid
        rw [heq]
        dsimp only
        refine ⟨_, List.mem_map.2 ⟨t, ht, rfl⟩, ?_⟩
        rw [if_pos hid]
        exact ⟨rfl, rfl⟩

/-- Witness for C10: updating with `status` (allowed) and `bogus`
(ignored) equals updating with the allowed restriction, and the
non-allowed `client_email` column of the target row keeps its value. -/
theorem update_ticket_frame_witness :
    update_ticket 5
      [⟨1, [("status", PyVal.vstr "new"),
            ("client_email", PyVal.vstr "a@b")], 0⟩] 1
      [("status", PyVal.vstr "sent"), ("bogus", PyVal.vstr "x")] =
      update_ticket 5
        [⟨1, [("status", PyVal.vstr "new"),
              ("client_email", PyVal.vstr "a@b")], 0⟩] 1
        ([("status", PyVal.vstr "sent"),
          ("bogus", PyVal.vstr "x")].filter
          (fun kv => allowedUpdateKeys.contains kv.1)) ∧
    (∃ t' ∈ (update_ticket 5
        [⟨1, [("status", PyVal.vstr "new"),
              ("client_email", PyVal.vstr "a@b")], 0⟩] 1
        [("status", PyVal.vstr "sent"), ("bogus", PyVal.vstr "x")]).2,
      t'.id = 1 ∧
      ∀ k, allowedUpdateKeys.contains k = false →
        t'.cols.lookup k =
          [("status", PyVal.vstr "new"),
           ("client_email", PyVal.vstr "a@b")].lookup k) := by
  have h := update_ticket_frame 5
    [⟨1, [("status", PyVal.vstr "new"),
          ("client_email", PyVal.vstr "a@b")], 0⟩] 1
    [("status", PyVal.vstr "sent"), ("bogus", PyVal.vstr "x")]
  exact ⟨h.1, h.2.2.2.1
    ⟨1, [("status", PyVal.vstr "new"),
         ("client_email", PyVal.vstr "a@b")], 0⟩ (by decide)⟩
